import Mathlib

/-!
Shallow embedding of the payment-to-provisioning core of the WhitePrism VPN
bot (`bot.py`): the sqlite ledger (`users`, `payments`, `subscriptions`),
the pricing computations, the Marzban provisioning client, and the two
payment-confirmation handlers (Telegram Stars `successful_payment_handler`
and the CryptoBot `crypto_webhook_handler`), together with the admin
balance-adjustment command.

Modelling conventions:
* Python strings are embedded as `List Char` (named `Str`), with the string
  operations the source uses (`split`, `startswith`, `int()`) implemented
  directly so that everything reduces in the kernel.
* sqlite tables are lists of rows inside a `DB` record; each ledger function
  mirrors the SQL statement of its source function.  Unused columns that no
  code path ever reads (`created_at`, `last_activity`, `auto_renew`,
  `username`/`first_name`/`last_name` of `users`) are omitted.
* Timestamps are seconds since the epoch as `ℕ`; `datetime.now()` is an
  explicit `now` parameter.
* Remote Marzban HTTP calls are external collaborators: each handler takes an
  environment record holding the outcome of the remote call(s) it performs.
* Python float arithmetic on prices (`1.65`, `/ 90`, `round`, `math.ceil`,
  `int()`) is embedded over `ℚ`.  For every value these computations are
  applied to in the source the double-precision result and the exact rational
  result agree (the quantities are tiny and never land on a representability
  or tie boundary: `100·p mod 90 = 45` is impossible for an integer `p`, so
  `round(p/90, 2)` has no ties).
* An uncaught Python exception (the sqlite `IntegrityError` raised by an
  `INSERT` that violates the `UNIQUE(payment_id)` constraint) aborts the
  handler; since each ledger helper commits on its own connection, the
  aborted handler leaves exactly the state committed so far.
* The source reads a `preferred_country` column (`SELECT` at bot.py:864 and
  bot.py:936, `UPDATE` at bot.py:635) that `init_db` (bot.py:107-117) never
  creates and no statement ever adds, so those statements raise
  `sqlite3.OperationalError` on every call.  The raise in the middle of each
  payment handler is modeled by the `Effect.opErrorNoSuchColumn` effect
  ending the handler: the Stars handler dies on the uncaught exception, the
  crypto webhook catches it in its outer `try` and answers HTTP 500; either
  way nothing after the doomed `SELECT` — in particular
  `create_vpn_subscription` — is reachable from a payment.
-/

/-! ## Strings -/

abbrev Str := List Char

/-- Python `s.split(sep)` with a one-character separator: cut at every
occurrence of `sep`, keeping empty pieces. -/
def splitOnCharAux (sep : Char) : List Char → List Char → List Str
  | [], acc => [acc.reverse]
  | c :: cs, acc =>
      if c = sep then acc.reverse :: splitOnCharAux sep cs []
      else splitOnCharAux sep cs (c :: acc)

def splitOnChar (sep : Char) (s : Str) : List Str :=
  splitOnCharAux sep s []

def isDigitChar (c : Char) : Bool := '0' ≤ c && c ≤ '9'

def digitVal (c : Char) : ℕ := c.toNat - '0'.toNat

/-- Python `int(s)` on a non-negative decimal literal; `none` models the
`ValueError` raised on any other input.  (The source only ever feeds it
decimal user ids and amounts.) -/
def parseNat (s : Str) : Option ℕ :=
  if s ≠ [] && s.all isDigitChar then
    some (s.foldl (fun acc c => acc * 10 + digitVal c) 0)
  else none

/-- Python `int(s)` allowing a leading minus sign (used by
`admin_add_balance`, whose amount argument may be negative). -/
def parseInt (s : Str) : Option ℤ :=
  match s with
  | '-' :: rest => (parseNat rest).map (fun n => -(n : ℤ))
  | _ => (parseNat s).map (fun n => (n : ℤ))

/-- Python `str(n)` for a natural number. -/
def natToStr (n : ℕ) : Str := Nat.toDigits 10 n

/-! ## Pricing table and conversions (`TARIFFS`, `STAR_PRICE_RUB`,
`USDT_PRICE_RUB` and the conversion expressions in `callback_handler` and
`successful_payment_handler`) -/

structure Tariff where
  name : Str
  price : ℕ
  days : ℕ
  popular : Bool
deriving DecidableEq

/-- The static `TARIFFS` dictionary, as the lookup `TARIFFS.get(key)`. -/
def TARIFFS (key : Str) : Option Tariff :=
  if key = "month".data then some ⟨"1 месяц".data, 199, 30, true⟩
  else if key = "quarter".data then some ⟨"3 месяца".data, 499, 90, false⟩
  else if key = "year".data then some ⟨"1 год".data, 1499, 365, false⟩
  else none

def STAR_PRICE_RUB : ℚ := 165 / 100

def USDT_PRICE_RUB : ℚ := 90

/-- `math.ceil(tariff['price'] / STAR_PRICE_RUB)`: the number of Telegram
Stars the user is asked to pay (`callback_handler`, `tariff_` branch). -/
def stars_amount (price : ℕ) : ℤ := ⌈(price : ℚ) / STAR_PRICE_RUB⌉

/-- `round(tariff['price'] / USDT_PRICE_RUB, 2)`: the USDT amount the user is
asked to pay (`callback_handler`, `pay_crypto_` branch), expressed in cents
(hundredths of a USDT) so it stays an integer.  Rounding a value to two
decimal places is rounding `100·value` to the nearest integer; no tie ever
arises (`100·p mod 90 ≠ 45` for integer `p`), so Python's ties-to-even and
`round` agree on every input the source produces. -/
def usdt_amount_cents (price : ℕ) : ℤ := round ((price : ℚ) * 100 / USDT_PRICE_RUB)

/-- `int(amount_stars * STAR_PRICE_RUB)`: the ruble credit computed from a
paid Stars amount (`successful_payment_handler`); `int` truncates, which on a
non-negative value is the floor. -/
def rub_from_stars (amount_stars : ℕ) : ℤ := ⌊(amount_stars : ℚ) * STAR_PRICE_RUB⌋

/-! ## Ledger store (`users`, `payments`, `subscriptions` tables) -/

inductive PayStatus where
  | pending
  | completed
deriving DecidableEq

/-- A row of the `users` table.  The table's full column list is
`users_table_columns`; the columns no modeled code path reads
(`username`, `first_name`, `last_name`, `created_at`, `last_activity`) are
omitted from the row.  There is NO `preferred_country` column. -/
structure UserRow where
  user_id : ℕ
  balance : ℤ
deriving DecidableEq

/-- The column names of the `users` table as created by `init_db`
(bot.py:107-117): `CREATE TABLE IF NOT EXISTS users` with exactly these
columns.  No statement in the program ever alters this table, so any SQL
referencing a column outside this list raises
`sqlite3.OperationalError: no such column`. -/
def users_table_columns : List Str :=
  ["user_id".data, "username".data, "first_name".data, "last_name".data,
   "balance".data, "created_at".data, "last_activity".data]

structure PaymentRow where
  user_id : ℕ
  amount : ℤ
  currency : Str
  payment_id : Str
  tariff : Str
  status : PayStatus
  completed_at : Option ℕ
deriving DecidableEq

structure SubRow where
  id : ℕ
  user_id : ℕ
  marzban_username : Str
  config_link : Str
  country : Str
  expires_at : ℕ
  status : Str
deriving DecidableEq

structure DB where
  users : List UserRow
  payments : List PaymentRow
  subscriptions : List SubRow
  nextSubId : ℕ
deriving DecidableEq

def emptyDB : DB := ⟨[], [], [], 0⟩

def lookup_user (db : DB) (uid : ℕ) : Option UserRow :=
  db.users.find? (fun r => r.user_id == uid)

/-- `get_user_balance`: `SELECT balance FROM users WHERE user_id = ?`,
returning `row['balance'] if row else 0`. -/
def get_user_balance (db : DB) (uid : ℕ) : ℤ :=
  match lookup_user db uid with
  | some r => r.balance
  | none => 0

/-- `update_user_balance`: `INSERT INTO users (user_id, balance, ...)
VALUES (?, ?, ...) ON CONFLICT(user_id) DO UPDATE SET balance = balance + ?`.
The signed `amount` is added unconditionally; there is no non-negativity
check. -/
def update_user_balance (db : DB) (uid : ℕ) (amount : ℤ) : DB :=
  match lookup_user db uid with
  | some _ =>
      { db with users := db.users.map (fun r =>
          if r.user_id == uid then { r with balance := r.balance + amount } else r) }
  | none =>
      { db with users := db.users ++ [⟨uid, amount⟩] }

/-- `add_payment`: `INSERT INTO payments (...)`.  The `payment_id` column is
`UNIQUE`, so the insert raises `sqlite3.IntegrityError` when a row with the
same key already exists (any status); `none` models that exception. -/
def add_payment (db : DB) (uid : ℕ) (amount : ℤ) (currency payment_id tariff : Str)
    (status : PayStatus) : Option DB :=
  if db.payments.any (fun r => r.payment_id == payment_id) then none
  else some { db with
    payments := db.payments ++ [⟨uid, amount, currency, payment_id, tariff, status, none⟩] }

/-- `complete_payment`: `UPDATE payments SET status = 'completed',
completed_at = CURRENT_TIMESTAMP WHERE payment_id = ? AND status = 'pending'`,
returning `cur.rowcount > 0`. -/
def complete_payment (db : DB) (payment_id : Str) (now : ℕ) : DB × Bool :=
  ({ db with payments := db.payments.map (fun r =>
      if r.payment_id == payment_id && r.status == PayStatus.pending
      then { r with status := PayStatus.completed, completed_at := some now } else r) },
   0 < db.payments.countP (fun r => r.payment_id == payment_id && r.status == PayStatus.pending))

/-- The `SELECT * FROM subscriptions WHERE user_id = ? AND status = 'active'
AND expires_at > datetime('now') ORDER BY expires_at DESC LIMIT 1` query of
`extend_vpn_subscription`. -/
def latest_active_sub (db : DB) (now : ℕ) (uid : ℕ) : Option SubRow :=
  (db.subscriptions.filter (fun s =>
      s.user_id == uid && s.status == "active".data && now < s.expires_at)).foldl
    (fun acc s =>
      match acc with
      | none => some s
      | some b => if b.expires_at < s.expires_at then some s else some b)
    none

/-! ## Marzban provisioning client (`MarzbanAPI`) -/

structure MarzbanState where
  token : Option Str
  token_expiry : Option ℕ
deriving DecidableEq

/-- Outcome of the remote `POST /api/admin/token` call: `some tok` on
HTTP 200 with `access_token = tok`, `none` on a non-2xx status or a network
error (both of which make the source return `None`). -/
structure AuthEnv where
  authResult : Option Str
deriving DecidableEq

/-- `MarzbanAPI._auth`: serve the cached token while `now < token_expiry`;
otherwise call the remote auth endpoint.  On success cache the fresh token
with a one-hour expiry; on failure return `None` — the source leaves
`self.token` / `self.token_expiry` untouched on this path. -/
def MarzbanAPI.auth (st : MarzbanState) (now : ℕ) (env : AuthEnv) :
    MarzbanState × Option Str :=
  match st.token, st.token_expiry with
  | some t, some e =>
      if now < e then (st, some t)
      else
        match env.authResult with
        | some tok => (⟨some tok, some (now + 3600)⟩, some tok)
        | none => (st, none)
  | _, _ =>
      match env.authResult with
      | some tok => (⟨some tok, some (now + 3600)⟩, some tok)
      | none => (st, none)

/-- The new-expiry computation inside `MarzbanAPI.extend_user`:
`current_expire` is the remote user's `expire` field (`0` when the field is
absent/unset — Python treats `0` as falsy), `now` the current epoch second.
`if current_expire: new = max(current_expire, now) + days*86400
else: new = now + days*86400`. -/
def extend_user_new_expire (current_expire now days : ℕ) : ℕ :=
  if current_expire ≠ 0 then max current_expire now + days * 86400
  else now + days * 86400

/-- Outcomes of the chain of remote calls in `MarzbanAPI.extend_user`:
whether `_auth` yields a token, the `expire` field of the
`GET /api/user/{name}` response (`none` = non-200 or transport error), and
whether the `PUT /api/user/{name}` succeeds. -/
structure ExtendEnv where
  authOk : Bool
  getExpire : Option ℕ
  putOk : Bool
deriving DecidableEq

/-- `MarzbanAPI.extend_user`: returns the success boolean of the source and,
for observation, the expiry value pushed by the `PUT` (or `none` when no
`PUT` was issued). -/
def MarzbanAPI.extend_user (env : ExtendEnv) (now days : ℕ) : Bool × Option ℕ :=
  if env.authOk then
    match env.getExpire with
    | some e => (env.putOk, some (extend_user_new_expire e now days))
    | none => (false, none)
  else (false, none)

/-! ## Subscription provisioning (`create_vpn_subscription`,
`extend_vpn_subscription`) and handler effects -/

/-- Observable external effects of a handler run, in order: remote Marzban
calls and the messages sent to the user through the bot. -/
inductive Effect where
  /-- `marzban.create_user(username, days)` was invoked. -/
  | marzbanCreateCall (username : Str)
  /-- `marzban.extend_user(username, days)` was invoked. -/
  | marzbanExtendCall (username : Str)
  /-- the "Создаём ваш VPN-ключ..." progress message. -/
  | msgCreating (uid : ℕ)
  /-- the "Оплата получена!" acknowledgement of the crypto webhook. -/
  | msgPaid (uid : ℕ)
  /-- the success report with QR code, config link and expiry. -/
  | msgSuccess (uid : ℕ) (link : Str) (expires : ℕ)
  /-- the "Ошибка при создании VPN-ключа" failure report. -/
  | msgFailure (uid : ℕ)
  /-- `SELECT preferred_country FROM users WHERE user_id = ?` (bot.py:864 /
  bot.py:936) raised `sqlite3.OperationalError`: `preferred_country` is not
  among `users_table_columns` and nothing ever alters the table.  The Stars
  handler dies on the uncaught exception; the crypto webhook catches it and
  answers HTTP 500.  Nothing after this effect runs in the handler. -/
  | opErrorNoSuchColumn
deriving DecidableEq

def Effect.isCreateCall : Effect → Bool
  | .marzbanCreateCall _ => true
  | _ => false

def Effect.isExtendCall : Effect → Bool
  | .marzbanExtendCall _ => true
  | _ => false

def Effect.isSuccessMsg : Effect → Bool
  | .msgSuccess _ _ _ => true
  | _ => false

def Effect.isFailureMsg : Effect → Bool
  | .msgFailure _ => true
  | _ => false

/-- Outcome of `marzban.create_user(username, days)` (which chains `_auth`,
`POST /api/user` and `GET .../config`): `some link` is the config link
returned on full success, `none` any failure along the chain (the source
then returns `None`). -/
structure ProvisionEnv where
  createResult : Option Str
deriving DecidableEq

structure SubInfo where
  username : Str
  config_link : Str
  expires_at : ℕ
deriving DecidableEq

/-- `create_vpn_subscription(user_id, days, country)` (bot.py:353-381):
build the fresh Marzban username `user_{user_id}_{timestamp}`, call
`marzban.create_user`; on failure return falsy (`none`) with no ledger
change; on success insert a new `subscriptions` row with
`expires_at = now + days` and return the subscription info.  Both payment
handlers die on the missing `preferred_country` column before their call to
this function, so it is unreachable from a payment event. -/
def create_vpn_subscription (db : DB) (env : ProvisionEnv) (now : ℕ)
    (uid : ℕ) (days : ℕ) (country : Str) : DB × Option SubInfo × List Effect :=
  let username := "user_".data ++ natToStr uid ++ "_".data ++ natToStr now
  match env.createResult with
  | none => (db, none, [Effect.marzbanCreateCall username])
  | some link =>
      let expires := now + days * 86400
      (⟨db.users,
        db.payments,
        db.subscriptions ++ [⟨db.nextSubId, uid, username, link, country, expires, "active".data⟩],
        db.nextSubId + 1⟩,
       some ⟨username, link, expires⟩,
       [Effect.marzbanCreateCall username])

/-- `extend_vpn_subscription(user_id, days)`: select the latest active
subscription; if none, return `None`; else call `marzban.extend_user` and,
on success, set the row's `expires_at` to its old local value plus
`days` days and return the new expiry. -/
def extend_vpn_subscription (db : DB) (env : ExtendEnv) (now : ℕ)
    (uid : ℕ) (days : ℕ) : DB × Option ℕ × List Effect :=
  match latest_active_sub db now uid with
  | none => (db, none, [])
  | some sub =>
      if (MarzbanAPI.extend_user env now days).1 then
        let newExp := sub.expires_at + days * 86400
        (⟨db.users,
          db.payments,
          db.subscriptions.map (fun s => if s.id == sub.id then { s with expires_at := newExp } else s),
          db.nextSubId⟩,
         some newExp,
         [Effect.marzbanExtendCall sub.marzban_username])
      else (db, none, [Effect.marzbanExtendCall sub.marzban_username])

/-! ## Payment handlers -/

/-- A Telegram `successful_payment` update (Stars instrument). -/
structure StarsEvent where
  from_user : ℕ
  invoice_payload : Str
  total_amount : ℕ
  telegram_payment_charge_id : Str
deriving DecidableEq

/-- `successful_payment_handler`: on a `stars_` payload, resolve the tariff
(silently return on an unknown key), record the payment as `completed` keyed
by `telegram_payment_charge_id` (the `UNIQUE` violation on a replay raises
and aborts the handler before any credit), credit the ruble equivalent and
send the progress message — and then die with `OperationalError` on the
`preferred_country` read (bot.py:864), a column the schema does not have:
the provisioning tail of the handler (bot.py:869-901) is unreachable. -/
def successful_payment_handler (db : DB) (env : ProvisionEnv) (now : ℕ)
    (ev : StarsEvent) : DB × List Effect :=
  if "stars_".data.isPrefixOf ev.invoice_payload then
    let parts := splitOnChar '_' ev.invoice_payload
    let tariff_key := parts.getD 1 []
    match TARIFFS tariff_key with
    | none => (db, [])
    | some tariff =>
        let amount_stars := ev.total_amount / 100
        let rub_amount := rub_from_stars amount_stars
        match add_payment db ev.from_user rub_amount "XTR".data
            ev.telegram_payment_charge_id tariff_key PayStatus.completed with
        | none => (db, [])
        | some db1 =>
            let db2 := update_user_balance db1 ev.from_user rub_amount
            -- bot.py:856-867: the progress message is sent, then the handler
            -- runs `SELECT preferred_country FROM users WHERE user_id = ?`.
            -- `preferred_country` is not among `users_table_columns`, so
            -- sqlite raises `OperationalError`; the exception is uncaught and
            -- ends the handler here — `create_vpn_subscription` (bot.py:869)
            -- and the success/failure messages are never reached.
            (db2, [Effect.msgCreating ev.from_user, Effect.opErrorNoSuchColumn])
  else (db, [])

/-- An `invoice_paid` CryptoBot webhook delivery. -/
structure CryptoEvent where
  invoice_id : ℕ
  payload : Str
deriving DecidableEq

/-- The body `crypto_webhook_handler` runs once `complete_payment` has
reported a fresh pending→completed transition: parse the
`crypto_{tariff}_{uid}` payload (an unparsable user id raises `int`'s
`ValueError`, a missing tariff is skipped silently), credit the tariff
price and send the "Оплата получена!" message — and then hit the same
doomed `preferred_country` read (bot.py:936); the webhook's outer `try`
catches the `OperationalError` and answers HTTP 500, with the completed
transition and the credit already committed on their own connections.
`create_vpn_subscription` (bot.py:941) is unreachable. -/
def crypto_process_paid (db : DB) (env : ProvisionEnv) (now : ℕ)
    (payload : Str) : DB × List Effect :=
  let parts := splitOnChar '_' payload
  if 3 ≤ parts.length && parts.getD 0 [] == "crypto".data then
    match parseNat (parts.getD 2 []) with
    | none => (db, [])
    | some uid =>
        match TARIFFS (parts.getD 1 []) with
        | none => (db, [])
        | some tariff =>
            let db2 := update_user_balance db uid (tariff.price : ℤ)
            (db2, [Effect.msgPaid uid, Effect.opErrorNoSuchColumn])
  else (db, [])

/-- `crypto_webhook_handler` for an `invoice_paid` event: the
`complete_payment` transition is the dedup gate; when it reports no
transition the handler acknowledges and does nothing else. -/
def crypto_webhook_handler (db : DB) (env : ProvisionEnv) (now : ℕ)
    (ev : CryptoEvent) : DB × List Effect :=
  let gate := complete_payment db (natToStr ev.invoice_id) now
  if gate.2 then crypto_process_paid gate.1 env now ev.payload
  else (gate.1, [])

/-- `admin_add_balance`: parse `/admin_add_balance user_id amount`
(Python `str.split()`, dropping empty pieces; `int` may be negative) and add
the signed amount via `update_user_balance`; the boolean reports whether an
adjustment was made. -/
def admin_add_balance (db : DB) (text : Str) : DB × Bool :=
  let parts := (splitOnChar ' ' text).filter (fun p => p ≠ [])
  if parts.length ≠ 3 then (db, false)
  else
    match parseNat (parts.getD 1 []), parseInt (parts.getD 2 []) with
    | some uid, some amount => (update_user_balance db uid amount, true)
    | _, _ => (db, false)

/-- The cache-validity test at the top of `MarzbanAPI._auth`:
`self.token and self.token_expiry and datetime.now() < self.token_expiry`. -/
def cacheFresh (st : MarzbanState) (now : ℕ) : Bool :=
  match st.token, st.token_expiry with
  | some _, some e => now < e
  | _, _ => false

/-- Every account row holds a non-negative balance. -/
def balances_nonneg (db : DB) : Prop := ∀ r ∈ db.users, 0 ≤ r.balance

/-! ## Helper lemmas -/

theorem map_id_of_eq {α : Type} {f : α → α} :
    ∀ {l : List α}, (∀ x ∈ l, f x = x) → l.map f = l
  | [], _ => rfl
  | x :: xs, h => by
    simp only [List.map_cons, h x (List.mem_cons_self x xs),
      map_id_of_eq (fun y hy => h y (List.mem_cons_of_mem x hy))]

theorem update_user_balance_payments (db : DB) (uid : ℕ) (amt : ℤ) :
    (update_user_balance db uid amt).payments = db.payments := by
  unfold update_user_balance
  split <;> rfl

theorem update_user_balance_subs (db : DB) (uid : ℕ) (amt : ℤ) :
    (update_user_balance db uid amt).subscriptions = db.subscriptions := by
  unfold update_user_balance
  split <;> rfl

theorem create_vpn_payments (db : DB) (env : ProvisionEnv) (now uid days : ℕ) (c : Str) :
    (create_vpn_subscription db env now uid days c).1.payments = db.payments := by
  unfold create_vpn_subscription
  split <;> rfl

theorem create_vpn_users (db : DB) (env : ProvisionEnv) (now uid days : ℕ) (c : Str) :
    (create_vpn_subscription db env now uid days c).1.users = db.users := by
  unfold create_vpn_subscription
  split <;> rfl

theorem add_payment_users (db : DB) (uid : ℕ) (amt : ℤ) (cur pid tar : Str)
    (st : PayStatus) (db' : DB) (h : add_payment db uid amt cur pid tar st = some db') :
    db'.users = db.users := by
  unfold add_payment at h
  split at h
  · exact absurd h (by simp)
  · cases h
    rfl

theorem add_payment_some (db : DB) (uid : ℕ) (amt : ℤ) (cur pid tar : Str)
    (st : PayStatus) (db' : DB) (h : add_payment db uid amt cur pid tar st = some db') :
    db.payments.any (fun r => r.payment_id == pid) = false ∧
    db' = { db with payments := db.payments ++ [⟨uid, amt, cur, pid, tar, st, none⟩] } := by
  unfold add_payment at h
  split at h
  · exact absurd h (by simp)
  · next hb =>
    cases h
    exact ⟨by simpa using hb, rfl⟩

theorem add_payment_of_mem (db : DB) (uid : ℕ) (amt : ℤ) (cur pid tar : Str)
    (st : PayStatus) (h : db.payments.any (fun r => r.payment_id == pid) = true) :
    add_payment db uid amt cur pid tar st = none := by
  unfold add_payment
  simp [h]

theorem complete_payment_users (db : DB) (pid : Str) (now : ℕ) :
    (complete_payment db pid now).1.users = db.users := rfl

theorem complete_payment_subs (db : DB) (pid : Str) (now : ℕ) :
    (complete_payment db pid now).1.subscriptions = db.subscriptions := rfl

theorem complete_payment_not_pending (db : DB) (pid : Str) (now : ℕ) :
    ∀ r ∈ (complete_payment db pid now).1.payments,
      (r.payment_id == pid && r.status == PayStatus.pending) = false := by
  intro r hr
  unfold complete_payment at hr
  simp only [List.mem_map] at hr
  obtain ⟨s, _, rfl⟩ := hr
  by_cases h : (s.payment_id == pid && s.status == PayStatus.pending) = true
  · rw [if_pos h]
    simp
  · rw [if_neg h]
    simpa using h

theorem complete_payment_of_not_pending (db : DB) (pid : Str) (now : ℕ)
    (h : ∀ r ∈ db.payments, (r.payment_id == pid && r.status == PayStatus.pending) = false) :
    complete_payment db pid now = (db, false) := by
  unfold complete_payment
  have hmap : db.payments.map (fun r =>
      if r.payment_id == pid && r.status == PayStatus.pending
      then { r with status := PayStatus.completed, completed_at := some now } else r)
      = db.payments := by
    apply map_id_of_eq
    intro x hx
    simp [h x hx]
  have hc : db.payments.countP
      (fun r => r.payment_id == pid && r.status == PayStatus.pending) = 0 := by
    rw [List.countP_eq_zero]
    intro a ha
    simp [h a ha]
  rw [hmap, hc]
  rfl

theorem crypto_process_paid_payments (db : DB) (env : ProvisionEnv) (now : ℕ) (p : Str) :
    (crypto_process_paid db env now p).1.payments = db.payments := by
  simp only [crypto_process_paid]
  split
  · split
    · rfl
    · split
      · rfl
      · simp only
        rw [update_user_balance_payments]
  · rfl

theorem get_user_balance_update_self (db : DB) (uid : ℕ) (amt : ℤ) :
    get_user_balance (update_user_balance db uid amt) uid
      = get_user_balance db uid + amt := by
  unfold get_user_balance update_user_balance lookup_user
  rcases hfind : db.users.find? (fun r => r.user_id == uid) with _ | r
  · simp only [hfind]
    rw [List.find?_append, hfind]
    simp
  · simp only [hfind]
    rw [List.find?_map]
    have hpf : ((fun r : UserRow => r.user_id == uid) ∘
        (fun r : UserRow => if r.user_id == uid then { r with balance := r.balance + amt } else r))
        = fun r : UserRow => r.user_id == uid := by
      funext x
      by_cases hx : (x.user_id == uid) = true
      · rw [Function.comp_apply, if_pos hx]
      · rw [Function.comp_apply, if_neg hx]
    rw [hpf, hfind]
    have hr : r.user_id = uid := by simpa using List.find?_some hfind
    simp [hr]

theorem balance_eq_of_users_eq (db db' : DB) (h : db.users = db'.users) (uid : ℕ) :
    get_user_balance db uid = get_user_balance db' uid := by
  unfold get_user_balance lookup_user
  rw [h]

/-! ## Claims -/

/-- C10: for every user identifier with no account row, `get_user_balance`
returns 0 rather than failing or returning a distinguished absent value, and
for an existing row it returns that row's balance — so an account that was
never created is indistinguishable from one with a zero balance at the
balance-query interface. -/
theorem absent_user_balance_zero :
    (∀ (db : DB) (uid : ℕ), lookup_user db uid = none → get_user_balance db uid = 0) ∧
    (∀ (db : DB) (uid : ℕ) (r : UserRow), lookup_user db uid = some r →
      get_user_balance db uid = r.balance) := by
  constructor
  · intro db uid h
    simp [get_user_balance, h]
  · intro db uid r h
    simp [get_user_balance, h]

theorem absent_user_balance_zero_witness :
    lookup_user emptyDB 42 = none ∧ get_user_balance emptyDB 42 = 0 :=
  ⟨rfl, absent_user_balance_zero.1 emptyDB 42 rfl⟩

/-- C5: `complete_payment` returns `true` exactly when a pending row with the
key existed, i.e. exactly when the pending→completed transition happened in
this call; it returns `false` both when the key's row is already completed
and when no row with that key exists, leaving the payments table unchanged
in those cases; and after the call every row with the key is completed. -/
theorem complete_payment_transition_spec (db : DB) (pid : Str) (now : ℕ) :
    ((complete_payment db pid now).2 = true ↔
      ∃ r ∈ db.payments, r.payment_id = pid ∧ r.status = PayStatus.pending) ∧
    ((complete_payment db pid now).2 = false → (complete_payment db pid now).1 = db) ∧
    (∀ r ∈ (complete_payment db pid now).1.payments,
      r.payment_id = pid → r.status = PayStatus.completed) := by
  refine ⟨?_, ?_, ?_⟩
  · simp only [complete_payment, decide_eq_true_eq, List.countP_pos_iff]
    constructor
    · rintro ⟨r, hr, hp⟩
      refine ⟨r, hr, ?_⟩
      simpa using hp
    · rintro ⟨r, hr, h1, h2⟩
      exact ⟨r, hr, by simp [h1, h2]⟩
  · intro h
    have hz : db.payments.countP
        (fun r => r.payment_id == pid && r.status == PayStatus.pending) = 0 := by
      by_contra hne
      have hpos : (complete_payment db pid now).2 = true := by
        simp only [complete_payment, decide_eq_true_eq]
        exact Nat.pos_of_ne_zero hne
      simp [hpos] at h
    have hall : ∀ r ∈ db.payments,
        (r.payment_id == pid && r.status == PayStatus.pending) = false := by
      intro r hr
      have := List.countP_eq_zero.mp hz r hr
      simpa using this
    rw [complete_payment_of_not_pending db pid now hall]
  · intro r hr h1
    have hfalse := complete_payment_not_pending db pid now r hr
    rw [Bool.and_eq_false_iff] at hfalse
    rcases hfalse with hfalse | hfalse
    · exact absurd h1 (by simpa using hfalse)
    · cases hst : r.status
      · rw [hst] at hfalse
        simp at hfalse
      · rfl

theorem complete_payment_transition_spec_witness :
    (complete_payment emptyDB "555".data 1000).2 = false ∧
    (complete_payment emptyDB "555".data 1000).1 = emptyDB :=
  ⟨by decide, (complete_payment_transition_spec emptyDB "555".data 1000).2.1 (by decide)⟩

/-- C6: the new expiry computed (and pushed) by `MarzbanAPI.extend_user`
equals `max(remote current expiry, now) + days·86400`; extending never
decreases the expiry; extending a lapsed account yields exactly
`now + days·86400`; and the result is never below `now + days·86400`. -/
theorem extend_new_expiry_formula (e now d : ℕ) :
    extend_user_new_expire e now d = max e now + d * 86400 ∧
    e ≤ extend_user_new_expire e now d ∧
    (e ≤ now → extend_user_new_expire e now d = now + d * 86400) ∧
    now + d * 86400 ≤ extend_user_new_expire e now d ∧
    (∀ env : ExtendEnv, env.authOk = true → env.getExpire = some e →
      (MarzbanAPI.extend_user env now d).2 = some (max e now + d * 86400)) := by
  have hf : extend_user_new_expire e now d = max e now + d * 86400 := by
    unfold extend_user_new_expire
    by_cases h : e = 0
    · subst h
      rw [if_neg (by simp), Nat.zero_max]
    · rw [if_pos h]
  refine ⟨hf, ?_, ?_, ?_, ?_⟩
  · rw [hf]
    exact le_trans (Nat.le_max_left e now) (Nat.le_add_right _ _)
  · intro hle
    rw [hf, Nat.max_eq_right hle]
  · rw [hf]
    exact Nat.add_le_add_right (Nat.le_max_right e now) _
  · intro env h1 h2
    simp [MarzbanAPI.extend_user, h1, h2, hf]

theorem extend_new_expiry_formula_witness :
    ((5 : ℕ) ≤ 10 ∧ extend_user_new_expire 5 10 30 = 10 + 30 * 86400) ∧
    (MarzbanAPI.extend_user ⟨true, some 5, true⟩ 10 30).2 = some (max 5 10 + 30 * 86400) :=
  ⟨⟨by decide, (extend_new_expiry_formula 5 10 30).2.2.1 (by decide)⟩,
   (extend_new_expiry_formula 5 10 30).2.2.2.2 ⟨true, some 5, true⟩ rfl rfl⟩

/-- C9 refuted at a concrete input: the client holds an expired cached token
`"tok"`, the remote auth endpoint fails (`authResult = none`); `_auth`
returns a failure (`none`) but the cached credential is NOT cleared — the
stale token is still present in the cache afterwards. -/
theorem auth_failure_keeps_cached_token :
    (MarzbanAPI.auth ⟨some "tok".data, some 100⟩ 200 ⟨none⟩).2 = none ∧
    ((MarzbanAPI.auth ⟨some "tok".data, some 100⟩ 200 ⟨none⟩).1).token = some "tok".data := by
  decide

/-- C9 amended: when the cached credential is absent or expired and the
remote auth call fails, `_auth` returns a failure to the caller but leaves
the cached state unchanged (it does not clear it); nevertheless no stale
token is ever served — a returned token either came from a cache entry that
is still within its expiry or is the fresh token just obtained from the
remote endpoint. -/
theorem auth_failure_state_unchanged :
    (∀ (st : MarzbanState) (now : ℕ) (env : AuthEnv),
      cacheFresh st now = false → env.authResult = none →
      MarzbanAPI.auth st now env = (st, none)) ∧
    (∀ (st : MarzbanState) (now : ℕ) (env : AuthEnv) (t : Str),
      (MarzbanAPI.auth st now env).2 = some t →
      (cacheFresh st now = true ∧ st.token = some t) ∨ env.authResult = some t) := by
  constructor
  · intro st now env hc he
    rcases st with ⟨tok, texp⟩
    rcases tok with _ | t <;> rcases texp with _ | e <;>
      simp_all [MarzbanAPI.auth, cacheFresh]
  · intro st now env t h
    rcases st with ⟨tok, texp⟩
    rcases henv : env.authResult with _ | tk <;>
      rcases tok with _ | t' <;> rcases texp with _ | e <;>
      simp_all [MarzbanAPI.auth, cacheFresh]
    · by_cases hlt : now < e
      · simp_all
      · simp_all
    · by_cases hlt : now < e
      · simp_all
      · simp_all

theorem auth_failure_state_unchanged_witness :
    cacheFresh ⟨some "tok".data, some 100⟩ 200 = false ∧
    MarzbanAPI.auth ⟨some "tok".data, some 100⟩ 200 ⟨none⟩ = (⟨some "tok".data, some 100⟩, none) :=
  ⟨by decide,
   auth_failure_state_unchanged.1 ⟨some "tok".data, some 100⟩ 200 ⟨none⟩ (by decide) rfl⟩

/-- C4 refuted at a concrete input: the admin balance adjustment
`/admin_add_balance 7 -5` is accepted and leaves account 7 with balance −5:
the balance is not kept non-negative by the program's balance operations. -/
theorem admin_negative_adjustment_goes_negative :
    (admin_add_balance emptyDB "/admin_add_balance 7 -5".data).2 = true ∧
    get_user_balance (admin_add_balance emptyDB "/admin_add_balance 7 -5".data).1 7 = -5 := by
  decide

theorem rub_from_stars_nonneg (s : ℕ) : 0 ≤ rub_from_stars s := by
  unfold rub_from_stars STAR_PRICE_RUB
  rw [Int.le_floor]
  push_cast
  positivity

theorem balances_nonneg_of_users_eq (db db' : DB) (h : db.users = db'.users)
    (hb : balances_nonneg db') : balances_nonneg db := by
  unfold balances_nonneg at *
  rw [h]
  exact hb

theorem balances_nonneg_update (db : DB) (uid : ℕ) (amt : ℤ) (hamt : 0 ≤ amt)
    (h : balances_nonneg db) : balances_nonneg (update_user_balance db uid amt) := by
  intro r hr
  unfold update_user_balance at hr
  split at hr
  · simp only [List.mem_map] at hr
    obtain ⟨s, hs, rfl⟩ := hr
    by_cases hx : (s.user_id == uid) = true
    · rw [if_pos hx]
      exact add_nonneg (h s hs) hamt
    · rw [if_neg hx]
      exact h s hs
  · rcases List.mem_append.mp hr with hl | hr2
    · exact h r hl
    · simp only [List.mem_singleton] at hr2
      subst hr2
      exact hamt

theorem stars_preserves_nonneg (db : DB) (env : ProvisionEnv) (now : ℕ)
    (ev : StarsEvent) (h : balances_nonneg db) :
    balances_nonneg (successful_payment_handler db env now ev).1 := by
  simp only [successful_payment_handler]
  split
  · split
    · exact h
    · split
      · exact h
      · next db1 hA =>
        apply balances_nonneg_update _ _ _ (rub_from_stars_nonneg _)
        exact balances_nonneg_of_users_eq _ _ (add_payment_users _ _ _ _ _ _ _ _ hA) h
  · exact h

theorem crypto_process_paid_preserves_nonneg (db : DB) (env : ProvisionEnv) (now : ℕ)
    (p : Str) (h : balances_nonneg db) :
    balances_nonneg (crypto_process_paid db env now p).1 := by
  simp only [crypto_process_paid]
  split
  · split
    · exact h
    · split
      · exact h
      · exact balances_nonneg_update _ _ _ (Int.natCast_nonneg _) h
  · exact h

theorem crypto_preserves_nonneg (db : DB) (env : ProvisionEnv) (now : ℕ)
    (cev : CryptoEvent) (h : balances_nonneg db) :
    balances_nonneg (crypto_webhook_handler db env now cev).1 := by
  simp only [crypto_webhook_handler]
  have hgate : balances_nonneg (complete_payment db (natToStr cev.invoice_id) now).1 :=
    balances_nonneg_of_users_eq _ _ (complete_payment_users _ _ _) h
  split
  · exact crypto_process_paid_preserves_nonneg _ _ _ _ hgate
  · exact hgate

/-- C4 amended: the payment-path balance operations only ever add
non-negative credits, so starting from non-negative balances both payment
handlers keep every balance non-negative (and a queried balance is then
non-negative); but `update_user_balance` — reachable through the admin
balance adjustment — adds an arbitrary signed amount with no check, so a
negative adjustment can produce a negative balance (see the
counterexample). -/
theorem payment_ops_preserve_nonneg_balance :
    (∀ (db : DB) (uid : ℕ) (amt : ℤ), 0 ≤ amt → balances_nonneg db →
      balances_nonneg (update_user_balance db uid amt)) ∧
    (∀ (db : DB) (env : ProvisionEnv) (now : ℕ) (ev : StarsEvent), balances_nonneg db →
      balances_nonneg (successful_payment_handler db env now ev).1) ∧
    (∀ (db : DB) (env : ProvisionEnv) (now : ℕ) (cev : CryptoEvent), balances_nonneg db →
      balances_nonneg (crypto_webhook_handler db env now cev).1) ∧
    (∀ (db : DB) (uid : ℕ), balances_nonneg db → 0 ≤ get_user_balance db uid) :=
  ⟨fun db uid amt hamt h => balances_nonneg_update db uid amt hamt h,
   fun db env now ev h => stars_preserves_nonneg db env now ev h,
   fun db env now cev h => crypto_preserves_nonneg db env now cev h,
   fun db uid h => by
     unfold get_user_balance
     rcases hfind : lookup_user db uid with _ | r
     · simp
     · simp only
       exact h r (List.mem_of_find?_eq_some hfind)⟩

theorem payment_ops_preserve_nonneg_balance_witness :
    balances_nonneg (update_user_balance emptyDB 7 5) ∧
    0 ≤ get_user_balance (update_user_balance emptyDB 7 5) 7 := by
  have h0 : balances_nonneg emptyDB := by
    intro r hr
    exact absurd hr (List.not_mem_nil r)
  have h1 := payment_ops_preserve_nonneg_balance.1 emptyDB 7 5 (by decide) h0
  exact ⟨h1, payment_ops_preserve_nonneg_balance.2.2.2 _ 7 h1⟩

/-- C1: replaying a payment event with the same idempotency key is a no-op.
After the first delivery of a Stars event (key
`telegram_payment_charge_id`) or a crypto webhook (key = invoice id) has
been processed, a second delivery with the same key leaves the ledger state
exactly as it was and produces no effects at all — in particular zero
additional balance change and zero additional provisioning calls.  (On the
Stars path the replayed `INSERT` violates the `UNIQUE(payment_id)`
constraint and aborts the handler before any credit; on the crypto path the
`complete_payment` dedup gate reports no transition.) -/
theorem payment_replay_noop (db : DB) (env₁ env₂ : ProvisionEnv) (now₁ now₂ : ℕ)
    (ev : StarsEvent) (cev : CryptoEvent) :
    successful_payment_handler (successful_payment_handler db env₁ now₁ ev).1 env₂ now₂ ev
      = ((successful_payment_handler db env₁ now₁ ev).1, []) ∧
    crypto_webhook_handler (crypto_webhook_handler db env₁ now₁ cev).1 env₂ now₂ cev
      = ((crypto_webhook_handler db env₁ now₁ cev).1, []) := by
  constructor
  · by_cases hpre : ("stars_".data.isPrefixOf ev.invoice_payload) = true
    · rcases hT : TARIFFS ((splitOnChar '_' ev.invoice_payload).getD 1 []) with _ | t
      · simp [successful_payment_handler, hpre, hT, -List.getD_eq_getElem?_getD]
      · rcases hA : add_payment db ev.from_user (rub_from_stars (ev.total_amount / 100))
            "XTR".data ev.telegram_payment_charge_id
            ((splitOnChar '_' ev.invoice_payload).getD 1 []) PayStatus.completed with _ | db1
        · simp [successful_payment_handler, hpre, hT, hA, -List.getD_eq_getElem?_getD]
        · obtain ⟨hfresh, hdb1⟩ := add_payment_some _ _ _ _ _ _ _ _ hA
          have hfst : (successful_payment_handler db env₁ now₁ ev).1
              = update_user_balance db1 ev.from_user (rub_from_stars (ev.total_amount / 100)) := by
            simp [successful_payment_handler, hpre, hT, hA, -List.getD_eq_getElem?_getD]
          have hpay : (successful_payment_handler db env₁ now₁ ev).1.payments
              = db.payments ++ [⟨ev.from_user, rub_from_stars (ev.total_amount / 100), "XTR".data,
                  ev.telegram_payment_charge_id,
                  (splitOnChar '_' ev.invoice_payload).getD 1 [], PayStatus.completed, none⟩] := by
            rw [hfst, update_user_balance_payments, hdb1]
          have hmem : (successful_payment_handler db env₁ now₁ ev).1.payments.any
              (fun r => r.payment_id == ev.telegram_payment_charge_id) = true := by
            rw [hpay, List.any_append]
            simp
          have hnone := add_payment_of_mem (successful_payment_handler db env₁ now₁ ev).1
            ev.from_user (rub_from_stars (ev.total_amount / 100)) "XTR".data
            ev.telegram_payment_charge_id ((splitOnChar '_' ev.invoice_payload).getD 1 [])
            PayStatus.completed hmem
          generalize hX : (successful_payment_handler db env₁ now₁ ev).1 = X at hnone ⊢
          simp [successful_payment_handler, hpre, hT, hnone, -List.getD_eq_getElem?_getD]
    · simp [successful_payment_handler, hpre]
  · have hpay2 : (crypto_webhook_handler db env₁ now₁ cev).1.payments
        = (complete_payment db (natToStr cev.invoice_id) now₁).1.payments := by
      simp only [crypto_webhook_handler]
      split
      · exact crypto_process_paid_payments _ _ _ _
      · rfl
    have hnp : ∀ r ∈ (crypto_webhook_handler db env₁ now₁ cev).1.payments,
        (r.payment_id == natToStr cev.invoice_id && r.status == PayStatus.pending) = false := by
      rw [hpay2]
      exact complete_payment_not_pending db _ now₁
    have hcp := complete_payment_of_not_pending _ (natToStr cev.invoice_id) now₂ hnp
    generalize hX : (crypto_webhook_handler db env₁ now₁ cev).1 = X at hcp ⊢
    simp [crypto_webhook_handler, hcp]

theorem update_user_balance_nextSubId (db : DB) (uid : ℕ) (amt : ℤ) :
    (update_user_balance db uid amt).nextSubId = db.nextSubId := by
  unfold update_user_balance
  split <;> rfl

/-- C2 refuted at a concrete input: user 1 holds an active subscription with
5 days left (`latest_active_sub` finds it), then a confirmed Stars payment
for the 30-day tariff is processed.  No extend call (and no create call)
ever happens and the subscriptions table — including the existing row's
expiry — is left completely untouched: the handler records the payment,
credits the balance, sends *"Создаём ваш VPN-ключ..."* and then dies with
`OperationalError` on the `preferred_country` read. -/
theorem payment_with_active_sub_no_extend_call :
    (latest_active_sub
        ⟨[⟨1, 0⟩], [],
         [⟨0, 1, "user_1_a".data, "oldlink".data, "nl".data, 1000 + 5 * 86400, "active".data⟩], 1⟩
        1000 1).isSome = true ∧
    ((successful_payment_handler
        ⟨[⟨1, 0⟩], [],
         [⟨0, 1, "user_1_a".data, "oldlink".data, "nl".data, 1000 + 5 * 86400, "active".data⟩], 1⟩
        ⟨some "newlink".data⟩ 1000
        ⟨1, "stars_month_1".data, 12100, "chg1".data⟩).2.filter Effect.isExtendCall) = [] ∧
    ((successful_payment_handler
        ⟨[⟨1, 0⟩], [],
         [⟨0, 1, "user_1_a".data, "oldlink".data, "nl".data, 1000 + 5 * 86400, "active".data⟩], 1⟩
        ⟨some "newlink".data⟩ 1000
        ⟨1, "stars_month_1".data, 12100, "chg1".data⟩).2.filter Effect.isCreateCall) = [] ∧
    (successful_payment_handler
        ⟨[⟨1, 0⟩], [],
         [⟨0, 1, "user_1_a".data, "oldlink".data, "nl".data, 1000 + 5 * 86400, "active".data⟩], 1⟩
        ⟨some "newlink".data⟩ 1000
        ⟨1, "stars_month_1".data, 12100, "chg1".data⟩).1.subscriptions
      = [⟨0, 1, "user_1_a".data, "oldlink".data, "nl".data, 1000 + 5 * 86400, "active".data⟩] := by
  decide

/-- C2 amended: a confirmed payment for a user with an active subscription
neither extends nor creates.  After recording the payment and crediting the
balance, the handler executes `SELECT preferred_country FROM users ...` —
but `preferred_country` is not a column of the `users` table
(`users_table_columns`), so the statement raises
`sqlite3.OperationalError` and the handler dies right after the progress
message: the subscriptions table is untouched (the existing row keeps its
expiry, and no second row or remote account appears), with zero extend
calls and zero create calls.  `extend_vpn_subscription` exists in the code
but is never invoked by any payment handler. -/
theorem payment_aborts_on_missing_country_column
    (db : DB) (env : ProvisionEnv) (now : ℕ) (ev : StarsEvent) (t : Tariff)
    (hsub : (latest_active_sub db now ev.from_user).isSome = true)
    (hpre : ("stars_".data.isPrefixOf ev.invoice_payload) = true)
    (hT : TARIFFS ((splitOnChar '_' ev.invoice_payload).getD 1 []) = some t)
    (hfresh : db.payments.any (fun r => r.payment_id == ev.telegram_payment_charge_id) = false) :
    "preferred_country".data ∉ users_table_columns ∧
    (successful_payment_handler db env now ev).1.subscriptions = db.subscriptions ∧
    (successful_payment_handler db env now ev).2
      = [Effect.msgCreating ev.from_user, Effect.opErrorNoSuchColumn] := by
  have hA : add_payment db ev.from_user (rub_from_stars (ev.total_amount / 100)) "XTR".data
      ev.telegram_payment_charge_id ((splitOnChar '_' ev.invoice_payload).getD 1 [])
      PayStatus.completed
      = some { db with payments := db.payments ++ [⟨ev.from_user,
          rub_from_stars (ev.total_amount / 100), "XTR".data, ev.telegram_payment_charge_id,
          (splitOnChar '_' ev.invoice_payload).getD 1 [], PayStatus.completed, none⟩] } := by
    simp [add_payment, hfresh]
  have h1 : (successful_payment_handler db env now ev).1
      = update_user_balance
          { db with payments := db.payments ++ [⟨ev.from_user,
              rub_from_stars (ev.total_amount / 100), "XTR".data, ev.telegram_payment_charge_id,
              (splitOnChar '_' ev.invoice_payload).getD 1 [], PayStatus.completed, none⟩] }
          ev.from_user (rub_from_stars (ev.total_amount / 100)) := by
    simp [successful_payment_handler, hpre, hT, hA, -List.getD_eq_getElem?_getD]
  have h2 : (successful_payment_handler db env now ev).2
      = [Effect.msgCreating ev.from_user, Effect.opErrorNoSuchColumn] := by
    simp [successful_payment_handler, hpre, hT, hA, -List.getD_eq_getElem?_getD]
  refine ⟨by decide, ?_, h2⟩
  rw [h1, update_user_balance_subs]

theorem payment_aborts_on_missing_country_column_witness :
    (latest_active_sub
        ⟨[⟨1, 0⟩], [],
         [⟨0, 1, "user_1_a".data, "oldlink".data, "nl".data, 1000 + 5 * 86400, "active".data⟩], 1⟩
        1000 1).isSome = true ∧
    ("preferred_country".data ∉ users_table_columns ∧
     (successful_payment_handler
         ⟨[⟨1, 0⟩], [],
          [⟨0, 1, "user_1_a".data, "oldlink".data, "nl".data, 1000 + 5 * 86400, "active".data⟩], 1⟩
         ⟨some "newlink".data⟩ 1000
         ⟨1, "stars_month_1".data, 12100, "chg1".data⟩).1.subscriptions
       = (⟨[⟨1, 0⟩], [],
           [⟨0, 1, "user_1_a".data, "oldlink".data, "nl".data, 1000 + 5 * 86400, "active".data⟩], 1⟩
           : DB).subscriptions ∧
     (successful_payment_handler
         ⟨[⟨1, 0⟩], [],
          [⟨0, 1, "user_1_a".data, "oldlink".data, "nl".data, 1000 + 5 * 86400, "active".data⟩], 1⟩
         ⟨some "newlink".data⟩ 1000
         ⟨1, "stars_month_1".data, 12100, "chg1".data⟩).2
       = [Effect.msgCreating 1, Effect.opErrorNoSuchColumn]) :=
  ⟨by decide,
   payment_aborts_on_missing_country_column
     ⟨[⟨1, 0⟩], [],
      [⟨0, 1, "user_1_a".data, "oldlink".data, "nl".data, 1000 + 5 * 86400, "active".data⟩], 1⟩
     ⟨some "newlink".data⟩ 1000 ⟨1, "stars_month_1".data, 12100, "chg1".data⟩
     ⟨"1 месяц".data, 199, 30, true⟩
     (by decide) (by decide) (by decide) (by decide)⟩

/-- C3, the code evaluated at the failing input (a fresh confirmed Stars
payment for the month tariff): the handler records the payment (one ledger
row) and credits the balance, but dies with `sqlite3.OperationalError` on
the `preferred_country` read right after the progress message — the
provisioning call is never attempted (no remote-call effect of any kind),
no subscription row is created or mutated, and neither a failure message
nor a success report is ever sent: the user sees "Создаём ваш
VPN-ключ..." and then silence. -/
theorem stars_payment_dies_before_provisioning :
    (successful_payment_handler emptyDB ⟨some "link".data⟩ 1000
        ⟨1, "stars_month_1".data, 12100, "chg1".data⟩).1.subscriptions = [] ∧
    (successful_payment_handler emptyDB ⟨some "link".data⟩ 1000
        ⟨1, "stars_month_1".data, 12100, "chg1".data⟩).1.payments.length = 1 ∧
    (successful_payment_handler emptyDB ⟨some "link".data⟩ 1000
        ⟨1, "stars_month_1".data, 12100, "chg1".data⟩).2
      = [Effect.msgCreating 1, Effect.opErrorNoSuchColumn] ∧
    ((successful_payment_handler emptyDB ⟨some "link".data⟩ 1000
        ⟨1, "stars_month_1".data, 12100, "chg1".data⟩).2.filter Effect.isFailureMsg) = [] ∧
    ((successful_payment_handler emptyDB ⟨some "link".data⟩ 1000
        ⟨1, "stars_month_1".data, 12100, "chg1".data⟩).2.filter Effect.isSuccessMsg) = [] := by
  decide

/-- C7 refuted at a concrete input: for the month tariff (price 199 ₽, rate
90 ₽/USDT) the USDT amount asked of the user is `round(199/90, 2)` =
2.21 USDT = 221 cents, and 221 cents × 90 ₽ = 198.90 ₽ < 199 ₽ — the USDT
amount is rounded to nearest, not up, so the user under-pays the settlement
price. -/
theorem usdt_amount_underpays_month :
    TARIFFS "month".data = some ⟨"1 месяц".data, 199, 30, true⟩ ∧
    usdt_amount_cents 199 * 90 < 199 * 100 := by
  constructor
  · decide
  · have h : usdt_amount_cents 199 = 221 := by
      norm_num [usdt_amount_cents, USDT_PRICE_RUB, round_eq]
    rw [h]
    norm_num

/-- C7 amended: the Stars amount is the price divided by the configured rate
rounded UP, so paying it can never under-pay the settlement price; the USDT
amount, however, is rounded to the NEAREST cent, so it only matches the
settlement price to within half a cent's worth (0.45 ₽) in either
direction — it can under-charge (see the counterexample). -/
theorem stars_round_up_usdt_round_nearest :
    (∀ price : ℕ, (price : ℚ) ≤ (stars_amount price : ℚ) * STAR_PRICE_RUB) ∧
    (∀ price : ℕ,
      |(usdt_amount_cents price : ℚ) * USDT_PRICE_RUB - (price : ℚ) * 100| ≤ 45) := by
  constructor
  · intro price
    have hpos : (0 : ℚ) < STAR_PRICE_RUB := by norm_num [STAR_PRICE_RUB]
    have h := Int.le_ceil ((price : ℚ) / STAR_PRICE_RUB)
    calc (price : ℚ) = (price : ℚ) / STAR_PRICE_RUB * STAR_PRICE_RUB := by
          field_simp
      _ ≤ (⌈(price : ℚ) / STAR_PRICE_RUB⌉ : ℚ) * STAR_PRICE_RUB :=
          mul_le_mul_of_nonneg_right h (le_of_lt hpos)
      _ = (stars_amount price : ℚ) * STAR_PRICE_RUB := by rw [stars_amount]
  · intro price
    have key : |(round ((price : ℚ) * 100 / USDT_PRICE_RUB) : ℚ)
        - (price : ℚ) * 100 / USDT_PRICE_RUB| ≤ 1 / 2 := by
      rw [abs_sub_comm]
      exact abs_sub_round ((price : ℚ) * 100 / USDT_PRICE_RUB)
    have hx : ((price : ℚ) * 100 / USDT_PRICE_RUB) * USDT_PRICE_RUB = (price : ℚ) * 100 := by
      simp only [USDT_PRICE_RUB]
      field_simp
    have expand : (usdt_amount_cents price : ℚ) * USDT_PRICE_RUB - (price : ℚ) * 100
        = ((round ((price : ℚ) * 100 / USDT_PRICE_RUB) : ℚ)
            - (price : ℚ) * 100 / USDT_PRICE_RUB) * USDT_PRICE_RUB := by
      rw [usdt_amount_cents, sub_mul, hx]
    rw [expand, abs_mul]
    have h90 : |(USDT_PRICE_RUB : ℚ)| = 90 := by norm_num [USDT_PRICE_RUB]
    rw [h90]
    calc |(round ((price : ℚ) * 100 / USDT_PRICE_RUB) : ℚ)
          - (price : ℚ) * 100 / USDT_PRICE_RUB| * 90
        ≤ (1 / 2) * 90 := mul_le_mul_of_nonneg_right key (by norm_num)
      _ = 45 := by norm_num

/-- C8 refuted at a concrete input: a Stars payment event whose payload
carries the unknown tariff key `gold` makes the handler return before
recording anything — the event is NOT recorded in the ledger (payments stay
empty, so replays are not blocked), no credit or provisioning occurs, and no
message or flag of any kind is produced. -/
theorem stars_unknown_tariff_not_recorded :
    TARIFFS "gold".data = none ∧
    successful_payment_handler emptyDB ⟨some "link".data⟩ 1000
      ⟨1, "stars_gold_1".data, 12100, "chg9".data⟩ = (emptyDB, []) := by
  decide

/-- C8 amended: on the Stars path an unknown tariff key makes the handler
return before recording anything (no ledger row, no credit, no provisioning,
no message, no flag); on the crypto-webhook path the event IS transitioned
to completed (blocking replays) and no credit or provisioning occurs, but
the webhook is acknowledged silently — nothing is flagged for manual
review on either path. -/
theorem unknown_tariff_no_credit_no_flag
    (db : DB) (env : ProvisionEnv) (now : ℕ) (ev : StarsEvent) (cev : CryptoEvent)
    (hpre : ("stars_".data.isPrefixOf ev.invoice_payload) = true)
    (hts : TARIFFS ((splitOnChar '_' ev.invoice_payload).getD 1 []) = none)
    (htc : TARIFFS ((splitOnChar '_' cev.payload).getD 1 []) = none) :
    successful_payment_handler db env now ev = (db, []) ∧
    crypto_webhook_handler db env now cev
      = ((complete_payment db (natToStr cev.invoice_id) now).1, []) ∧
    (crypto_webhook_handler db env now cev).1.users = db.users := by
  have hcw : crypto_webhook_handler db env now cev
      = ((complete_payment db (natToStr cev.invoice_id) now).1, []) := by
    simp only [crypto_webhook_handler, crypto_process_paid]
    split
    · split
      · split
        · rfl
        · next heq =>
          rw [htc]
      · rfl
    · rfl
  refine ⟨?_, hcw, ?_⟩
  · simp [successful_payment_handler, hpre, hts, -List.getD_eq_getElem?_getD]
  · rw [hcw]
    exact complete_payment_users db _ now

theorem unknown_tariff_no_credit_no_flag_witness :
    (TARIFFS ((splitOnChar '_' "crypto_gold_1".data).getD 1 []) = none) ∧
    (successful_payment_handler emptyDB ⟨some "link".data⟩ 2000
        ⟨1, "stars_gold_1".data, 12100, "chgA".data⟩ = (emptyDB, []) ∧
      crypto_webhook_handler emptyDB ⟨some "link".data⟩ 2000 ⟨555, "crypto_gold_1".data⟩
        = ((complete_payment emptyDB (natToStr 555) 2000).1, []) ∧
      (crypto_webhook_handler emptyDB ⟨some "link".data⟩ 2000
        ⟨555, "crypto_gold_1".data⟩).1.users = emptyDB.users) :=
  ⟨by decide,
   unknown_tariff_no_credit_no_flag emptyDB ⟨some "link".data⟩ 2000
     ⟨1, "stars_gold_1".data, 12100, "chgA".data⟩ ⟨555, "crypto_gold_1".data⟩
     (by decide) (by decide) (by decide)⟩
